import Mathlib

/-!
Shallow embedding of the TV-RotationSync sync server (src/index.js).

The server keeps three pieces of in-memory state:
  * `syncState` — an object holding the election fields `leaderId` and
    `leaderHeartbeat` together with the shared payload fields
    (`currentIndex`, `rotateInterval`, ...);
  * `connectedBrowsers` — a map from browser id to `{ lastSeen, tf }`;
  * a periodic sweep that evicts browsers silent for more than 30 s and
    clears leadership when the evicted browser was the leader.

We split `syncState` into the two election fields plus an association list
`fields` for every other key (the JS object spread on `syncState` is
modelled by `spreadState`, which routes an update key to the election
fields or to `fields` exactly as the one flat JS object would).
Timestamps are `Nat` (milliseconds, `Date.now()`).  JSON values are the
inductive `JVal`.  JS truthiness of the string inputs (`browserId`,
`tf`, ...) is `truthy?`; truthiness of a numeric timestamp
(`timestamp || Date.now()`) is `tsOrNow`.
-/

namespace SyncServer

/-- A JSON value, as carried in request bodies and in `syncState`. -/
inductive JVal where
  | vNull : JVal
  | vBool : Bool → JVal
  | vNum : Int → JVal
  | vStr : String → JVal
  | vArr : List JVal → JVal
  | vObj : List (String × JVal) → JVal

/-- Association-list read: the first binding for `key` (JS objects have
unique keys; lists built with `assocSet` keep that shape). -/
def assocGet {α : Type} (m : List (String × α)) (key : String) : Option α :=
  (m.find? (fun kv => kv.1 = key)).map (fun kv => kv.2)

/-- Association-list write, modelling `obj[key] = v`: replace the first
binding for `key` in place, or append a new binding. -/
def assocSet {α : Type} : List (String × α) → String → α → List (String × α)
  | [], key, v => [(key, v)]
  | (k, w) :: rest, key, v =>
      if k = key then (key, v) :: rest else (k, w) :: assocSet rest key v

/-- One entry of `connectedBrowsers`: `{ lastSeen, tf }`. -/
structure BrowserInfo where
  lastSeen : Nat
  tf : String
deriving DecidableEq

/-- The whole server state: `syncState` (split into the election fields and
the remaining payload `fields`) plus `connectedBrowsers`. -/
structure ServerState where
  leaderId : Option String
  leaderHeartbeat : Nat
  fields : List (String × JVal)
  browsers : List (String × BrowserInfo)

/-- JS truthiness of an optional string: `undefined`, `null` and `""` are
falsy; any other string is truthy (returned). -/
def truthy? : Option String → Option String
  | some s => if s = "" then none else some s
  | none => none

/-- Models `ts || Date.now()`: an absent or zero client timestamp falls
back to the server clock. -/
def tsOrNow (ts : Option Nat) (now : Nat) : Nat :=
  match ts with
  | some t => if t = 0 then now else t
  | none => now

/-- Models `tf || '5'` as stored by `registerBrowser`. -/
def orDefaultTf : Option String → String
  | some t => if t = "" then "5" else t
  | none => "5"

/-- `registerBrowser(browserId, tf)` (src/index.js:95-100): overwrite the
record for `browserId` with `{ lastSeen: Date.now(), tf: tf || '5' }`. -/
def registerBrowser (s : ServerState) (now : Nat) (browserId : String)
    (tf : Option String) : ServerState :=
  { s with browsers := assocSet s.browsers browserId ⟨now, orDefaultTf tf⟩ }

/-- `id.slice(-8)`. -/
def sliceLast8 (s : String) : String := s.takeRight 8

/-- `syncState.leaderId ? syncState.leaderId.slice(-8) : 'none'`. -/
def shortOf : Option String → String
  | some l => sliceLast8 l
  | none => "none"

/-- `Math.round((now - info.lastSeen) / 1000)` on non-negative clocks. -/
def secondsAgo (now lastSeen : Nat) : Nat := (now - lastSeen + 500) / 1000

/-- The status chain of `getBrowserStats` (src/index.js:69-76):
`let status = 'online'; if (isLeader) ... else if (secondsAgo > 10) ...
else if (secondsAgo > 20) ...`. -/
def browserStatus (isLeader : Bool) (secsAgo : Nat) : String :=
  if isLeader then "leader"
  else if secsAgo > 10 then "warning"
  else if secsAgo > 20 then "offline"
  else "online"

/-- One element of `browsersList`. -/
structure BrowserView where
  id : String
  browserId : String
  isLeader : Bool
  status : String
  lastSeen : String
  tf : String
deriving DecidableEq

/-- The per-record view built inside `getBrowserStats`. -/
def browserView (s : ServerState) (now : Nat) (bid : String)
    (info : BrowserInfo) : BrowserView :=
  let isLeader : Bool := s.leaderId = some bid
  let secs := secondsAgo now info.lastSeen
  { id := sliceLast8 bid
    browserId := bid
    isLeader := isLeader
    status := browserStatus isLeader secs
    lastSeen := toString secs ++ "s ago"
    tf := if info.tf = "" then "5" else info.tf }

/-- The snapshot returned by `getBrowserStats`. -/
structure BrowserStats where
  totalBrowsers : Nat
  browsersOnline : Nat
  browsersList : List BrowserView
deriving DecidableEq

/-- `getBrowserStats()` (src/index.js:62-93). -/
def getBrowserStats (s : ServerState) (now : Nat) : BrowserStats :=
  let browsers := s.browsers.map (fun kv => browserView s now kv.1 kv.2)
  { totalBrowsers := browsers.length
    browsersOnline := (browsers.filter (fun b => b.status != "offline")).length
    browsersList := browsers }

/-- `BROWSER_TIMEOUT` (src/index.js:34). -/
def BROWSER_TIMEOUT : Nat := 30000

/-- The eviction test of the sweep (src/index.js:40):
`now - info.lastSeen > BROWSER_TIMEOUT`. -/
def staleB (now : Nat) (kv : String × BrowserInfo) : Bool :=
  now - kv.2.lastSeen > BROWSER_TIMEOUT

/-- The ids deleted by one sweep pass. -/
def evictedIds (s : ServerState) (now : Nat) : List String :=
  (s.browsers.filter (staleB now)).map (fun kv => kv.1)

/-- Whether the sweep's per-deletion check `syncState.leaderId === browserId`
(src/index.js:45) fires for some deleted record. -/
def leaderEvicted (s : ServerState) (now : Nat) : Bool :=
  match s.leaderId with
  | some lid => (evictedIds s now).contains lid
  | none => false

/-- The sweep body run by `setInterval` (src/index.js:35-56): delete every
record with `now - lastSeen > BROWSER_TIMEOUT`; if a deleted record's id
is the current leader, clear `leaderId` and zero `leaderHeartbeat`. -/
def sweep (s : ServerState) (now : Nat) : ServerState :=
  { s with
    browsers := s.browsers.filter (fun kv => !(staleB now kv))
    leaderId := if leaderEvicted s now then none else s.leaderId
    leaderHeartbeat := if leaderEvicted s now then 0 else s.leaderHeartbeat }

/-- The value assigned to a JS variable holding `leaderId` when the spread
writes that key (string or null; other JSON values are outside the model —
the code never reaches this, see `spreadState`). -/
def asLeaderId : JVal → Option String
  | .vStr s => some s
  | _ => none

/-- The numeric value taken when the spread writes `leaderHeartbeat`
(non-numbers are outside the model; the code never reaches this). -/
def asHeartbeat : JVal → Nat
  | .vNum n => n.toNat
  | _ => 0

/-- One key of `syncState = { ...syncState, ...stateUpdates }`: `syncState`
is one flat JS object, so an update key is routed to the election fields
when it is `leaderId`/`leaderHeartbeat` and to the payload otherwise. -/
def applyUpdate (s : ServerState) (kv : String × JVal) : ServerState :=
  if kv.1 = "leaderId" then { s with leaderId := asLeaderId kv.2 }
  else if kv.1 = "leaderHeartbeat" then { s with leaderHeartbeat := asHeartbeat kv.2 }
  else { s with fields := assocSet s.fields kv.1 kv.2 }

/-- The whole object spread `{ ...syncState, ...updates }`. -/
def spreadState (s : ServerState) (updates : List (String × JVal)) : ServerState :=
  updates.foldl applyUpdate s

/-- The second destructuring of POST /sync-state (src/index.js:151):
`const { leaderId: _, leaderHeartbeat: __, ...stateUpdates } = rest`. -/
def stripElectionKeys (rest : List (String × JVal)) : List (String × JVal) :=
  rest.filter (fun kv => !(kv.1 = "leaderId" || kv.1 = "leaderHeartbeat"))

/-- Last-write-wins view of a JS object literal given as an ordered field
list: the value of the LAST binding for `key`, if any. -/
def lastVal : List (String × JVal) → String → Option JVal
  | [], _ => none
  | (k, v) :: rest, key =>
      match lastVal rest key with
      | some w => some w
      | none => if k = key then some v else none

/-- The body of POST /sync-state after the first destructuring
`const { leaderId, leaderHeartbeat, ...rest } = req.body`. -/
structure PostBody where
  leaderId : Option String
  leaderHeartbeat : Option Nat
  rest : List (String × JVal)

/-- `req.body.tf` as passed to `registerBrowser` by POST /sync-state
(`tf` is not destructured away, so it lives in `rest`). -/
def restTf (rest : List (String × JVal)) : Option String :=
  match assocGet rest "tf" with
  | some (.vStr s) => some s
  | _ => none

/-- A success/error response without election payload (POST /sync-state,
POST /heartbeat). `stats` is the spread `...getBrowserStats()`, absent on
a 400 error response. -/
structure SimpleResponse where
  status : Nat
  success : Bool
  error : Option String
  stats : Option BrowserStats

/-- POST /sync-state (src/index.js:137-163). Returns the new state and the
response. Note: there is no callerId validation on this route. -/
def postSyncState (s : ServerState) (now : Nat) (body : PostBody) :
    ServerState × SimpleResponse :=
  let s1 := match truthy? body.leaderId with
    | some lid => registerBrowser s now lid (restTf body.rest)
    | none => s
  let s2 := match truthy? body.leaderId with
    | some lid =>
        if s1.leaderId = some lid then
          { s1 with leaderHeartbeat := tsOrNow body.leaderHeartbeat now }
        else s1
    | none => s1
  let s3 := spreadState s2 (stripElectionKeys body.rest)
  (s3, { status := 200, success := true, error := none
         stats := some (getBrowserStats s3 now) })

/-- Response of POST /claim-leader. -/
structure ClaimResponse where
  status : Nat
  success : Bool
  leaderId : Option String
  reason : Option String
  error : Option String
  stats : Option BrowserStats

/-- `leaderTimeout` (src/index.js:193). -/
def leaderTimeout : Nat := 8000

/-- POST /claim-leader (src/index.js:166-223). -/
def claimLeader (s : ServerState) (now : Nat) (browserId : Option String)
    (timestamp : Option Nat) (force : Bool) (tf : Option String) :
    ServerState × ClaimResponse :=
  match truthy? browserId with
  | none =>
      (s, { status := 400, success := false, leaderId := none, reason := none
            error := some "browserId required", stats := none })
  | some bid =>
    let s1 := registerBrowser s now bid tf
    if force then
      let s2 := { s1 with leaderId := some bid, leaderHeartbeat := tsOrNow timestamp now }
      (s2, { status := 200, success := true, leaderId := some bid, reason := none
             error := none, stats := some (getBrowserStats s2 now) })
    else
      let timeSinceHeartbeat := now - s1.leaderHeartbeat
      if s1.leaderId = none ∨ timeSinceHeartbeat > leaderTimeout then
        let s2 := { s1 with leaderId := some bid, leaderHeartbeat := tsOrNow timestamp now }
        (s2, { status := 200, success := true, leaderId := some bid, reason := none
               error := none, stats := some (getBrowserStats s2 now) })
      else if s1.leaderId = some bid then
        let s2 := { s1 with leaderHeartbeat := tsOrNow timestamp now }
        (s2, { status := 200, success := true, leaderId := some bid, reason := none
               error := none, stats := some (getBrowserStats s2 now) })
      else
        (s1, { status := 200, success := false, leaderId := s1.leaderId
               reason := some ("Leader " ++ shortOf s1.leaderId ++ " is active")
               error := none, stats := some (getBrowserStats s1 now) })

/-- POST /heartbeat (src/index.js:226-244). -/
def heartbeat (s : ServerState) (now : Nat) (browserId : Option String)
    (tf : Option String) (isLeader : Bool) : ServerState × SimpleResponse :=
  match truthy? browserId with
  | none =>
      (s, { status := 400, success := false
            error := some "browserId required", stats := none })
  | some bid =>
    let s1 := registerBrowser s now bid tf
    let s2 := if isLeader ∧ s1.leaderId = some bid then
        { s1 with leaderHeartbeat := now }
      else s1
    (s2, { status := 200, success := true, error := none
           stats := some (getBrowserStats s2 now) })

/-- Response of GET /sync-state: `{ ...syncState, ...browserStats }`. -/
structure StateResponse where
  leaderId : Option String
  leaderHeartbeat : Nat
  fields : List (String × JVal)
  stats : BrowserStats

/-- GET /sync-state (src/index.js:117-134). -/
def getSyncState (s : ServerState) (now : Nat) (browserId : Option String)
    (tf : Option String) : ServerState × StateResponse :=
  let s1 := match truthy? browserId with
    | some bid => registerBrowser s now bid tf
    | none => s
  (s1, { leaderId := s1.leaderId, leaderHeartbeat := s1.leaderHeartbeat
         fields := s1.fields, stats := getBrowserStats s1 now })

/-- The non-election default fields of `syncState` (src/index.js:18-28,
also re-established by POST /reset). -/
def defaultFields : List (String × JVal) :=
  [("currentIndex", .vNum 0),
   ("rotateInterval", .vNum 7),
   ("fetchInterval", .vNum 120),
   ("colLInterval", .vNum 10),
   ("selectedFilters", .vArr [.vStr "Comfortable"]),
   ("filteredData", .vArr []),
   ("alertSettings", .vObj [])]

/-- The state right after startup, and the state POST /reset installs. -/
def resetState : ServerState :=
  { leaderId := none, leaderHeartbeat := 0
    fields := defaultFields, browsers := [] }

/-- POST /reset (src/index.js:252-267). -/
def resetServer (_ : ServerState) : ServerState × SimpleResponse :=
  (resetState, { status := 200, success := true, error := none, stats := none })

/-- One externally triggered transition of the server (a request on any
mutating route, a sweep tick, or a reset). -/
inductive Op where
  | getStateOp (now : Nat) (browserId : Option String) (tf : Option String) : Op
  | postStateOp (now : Nat) (body : PostBody) : Op
  | claimOp (now : Nat) (browserId : Option String) (timestamp : Option Nat)
      (force : Bool) (tf : Option String) : Op
  | heartbeatOp (now : Nat) (browserId : Option String) (tf : Option String)
      (isLeader : Bool) : Op
  | sweepOp (now : Nat) : Op
  | resetOp : Op

/-- The state change performed by one operation. -/
def step (s : ServerState) : Op → ServerState
  | .getStateOp now bid tf => (getSyncState s now bid tf).1
  | .postStateOp now body => (postSyncState s now body).1
  | .claimOp now bid ts force tf => (claimLeader s now bid ts force tf).1
  | .heartbeatOp now bid tf isL => (heartbeat s now bid tf isL).1
  | .sweepOp now => sweep s now
  | .resetOp => (resetServer s).1

/-- States reachable from process start through any sequence of requests,
sweeps and resets. -/
inductive Reachable : ServerState → Prop
  | init : Reachable resetState
  | next {s : ServerState} (op : Op) : Reachable s → Reachable (step s op)

/-- The registry invariant of the spec: a non-empty `leaderId` always has a
corresponding record in `connectedBrowsers`. -/
def leaderOk (s : ServerState) : Prop :=
  ∀ lid, s.leaderId = some lid → (assocGet s.browsers lid).isSome = true

/-- Last-write-wins merge of an ordered update list over one key: the last
update for the key if there is one, else the previous value. -/
def mergedVal (old : Option JVal) (updates : List (String × JVal)) (k : String) :
    Option JVal :=
  match lastVal updates k with
  | some v => some v
  | none => old

/- ## Helper lemmas -/

theorem assocGet_cons {α : Type} (k1 : String) (w : α) (tl : List (String × α))
    (k : String) :
    assocGet ((k1, w) :: tl) k = if k1 = k then some w else assocGet tl k := by
  simp only [assocGet, List.find?_cons]
  by_cases h : k1 = k <;> simp [h]

theorem assocGet_assocSet {α : Type} (m : List (String × α)) (key k : String) (v : α) :
    assocGet (assocSet m key v) k = if k = key then some v else assocGet m k := by
  induction m with
  | nil =>
      by_cases h : k = key
      · simp [assocGet, assocSet, List.find?_cons, h]
      · have h' : ¬ key = k := fun hh => h hh.symm
        simp [assocGet, assocSet, List.find?_cons, h, h']
  | cons hd tl ih =>
      obtain ⟨k1, w⟩ := hd
      by_cases h1 : k1 = key
      · subst h1
        rw [assocSet, if_pos rfl, assocGet_cons, assocGet_cons]
        by_cases h2 : k = k1
        · simp [h2]
        · have h' : ¬ k1 = k := fun hh => h2 hh.symm
          simp [h2, h']
      · rw [assocSet, if_neg h1, assocGet_cons, assocGet_cons]
        by_cases h2 : k1 = k
        · subst h2
          simp [h1]
        · have h' : ¬ k = k1 := fun hh => h2 hh.symm
          simp [h2, h', ih]

theorem assocGet_isSome_assocSet {α : Type} (m : List (String × α)) (key k : String)
    (v : α) (h : (assocGet m k).isSome = true) :
    (assocGet (assocSet m key v) k).isSome = true := by
  rw [assocGet_assocSet]
  by_cases hk : k = key <;> simp [hk, h]

theorem applyUpdate_browsers (s : ServerState) (kv : String × JVal) :
    (applyUpdate s kv).browsers = s.browsers := by
  unfold applyUpdate
  split <;> [rfl; split <;> rfl]

theorem spreadState_browsers (s : ServerState) (us : List (String × JVal)) :
    (spreadState s us).browsers = s.browsers := by
  induction us generalizing s with
  | nil => rfl
  | cons kv rest ih =>
      simp only [spreadState, List.foldl_cons]
      simp only [spreadState] at ih
      rw [ih, applyUpdate_browsers]

theorem mem_stripElectionKeys {rest : List (String × JVal)} {kv : String × JVal}
    (h : kv ∈ stripElectionKeys rest) :
    ¬ kv.1 = "leaderId" ∧ ¬ kv.1 = "leaderHeartbeat" := by
  unfold stripElectionKeys at h
  have := List.of_mem_filter h
  simpa using this

theorem spreadState_election (s : ServerState) (us : List (String × JVal))
    (h : ∀ kv ∈ us, ¬ kv.1 = "leaderId" ∧ ¬ kv.1 = "leaderHeartbeat") :
    (spreadState s us).leaderId = s.leaderId ∧
      (spreadState s us).leaderHeartbeat = s.leaderHeartbeat := by
  induction us generalizing s with
  | nil => exact ⟨rfl, rfl⟩
  | cons kv rest ih =>
      simp only [spreadState, List.foldl_cons]
      simp only [spreadState] at ih
      obtain ⟨h1, h2⟩ := h kv (List.mem_cons_self kv rest)
      have hrest : ∀ kv ∈ rest, ¬ kv.1 = "leaderId" ∧ ¬ kv.1 = "leaderHeartbeat" :=
        fun x hx => h x (List.mem_cons_of_mem kv hx)
      have happ : (applyUpdate s kv).leaderId = s.leaderId ∧
          (applyUpdate s kv).leaderHeartbeat = s.leaderHeartbeat := by
        unfold applyUpdate
        rw [if_neg h1, if_neg h2]
        exact ⟨rfl, rfl⟩
      obtain ⟨e1, e2⟩ := ih (applyUpdate s kv) hrest
      exact ⟨e1.trans happ.1, e2.trans happ.2⟩

theorem lastVal_cons (k1 : String) (v : JVal) (rest : List (String × JVal))
    (key : String) :
    lastVal ((k1, v) :: rest) key =
      match lastVal rest key with
      | some w => some w
      | none => if k1 = key then some v else none := rfl

theorem spreadState_fields (s : ServerState) (us : List (String × JVal)) (k : String)
    (h1 : ¬ k = "leaderId") (h2 : ¬ k = "leaderHeartbeat") :
    assocGet (spreadState s us).fields k = mergedVal (assocGet s.fields k) us k := by
  induction us generalizing s with
  | nil => rfl
  | cons kv rest ih =>
      obtain ⟨k1, v⟩ := kv
      simp only [spreadState, List.foldl_cons]
      simp only [spreadState] at ih
      rw [ih (applyUpdate s (k1, v))]
      have hfields : assocGet (applyUpdate s (k1, v)).fields k =
          if k1 = "leaderId" ∨ k1 = "leaderHeartbeat" then assocGet s.fields k
          else if k = k1 then some v else assocGet s.fields k := by
        unfold applyUpdate
        by_cases c1 : k1 = "leaderId"
        · simp [c1]
        · by_cases c2 : k1 = "leaderHeartbeat"
          · simp [c1, c2]
          · simp [c1, c2, assocGet_assocSet]
      rcases hv : lastVal rest k with _ | w
      · simp only [mergedVal, hv, lastVal_cons]
        rw [hfields]
        by_cases c3 : k1 = k
        · subst c3
          simp [h1, h2]
        · have c3' : ¬ k = k1 := fun hh => c3 hh.symm
          simp [c3, c3']
      · simp only [mergedVal, hv, lastVal_cons]

theorem registerBrowser_leaderId (s : ServerState) (now : Nat) (bid : String)
    (tf : Option String) : (registerBrowser s now bid tf).leaderId = s.leaderId := rfl

theorem registerBrowser_leaderHeartbeat (s : ServerState) (now : Nat) (bid : String)
    (tf : Option String) :
    (registerBrowser s now bid tf).leaderHeartbeat = s.leaderHeartbeat := rfl

theorem registerBrowser_fields (s : ServerState) (now : Nat) (bid : String)
    (tf : Option String) : (registerBrowser s now bid tf).fields = s.fields := rfl

theorem registerBrowser_browsers (s : ServerState) (now : Nat) (bid : String)
    (tf : Option String) :
    (registerBrowser s now bid tf).browsers =
      assocSet s.browsers bid ⟨now, orDefaultTf tf⟩ := rfl

theorem assocGet_mem {α : Type} {m : List (String × α)} {k : String} {v : α}
    (h : assocGet m k = some v) : (k, v) ∈ m := by
  unfold assocGet at h
  rcases hp : m.find? (fun kv => kv.1 = k) with _ | p
  · rw [hp] at h; simp at h
  · rw [hp] at h
    simp at h
    have hmem := List.mem_of_find?_eq_some hp
    have hpred := List.find?_some hp
    simp at hpred
    have : p = (k, v) := Prod.ext hpred h
    rw [this] at hmem
    exact hmem

theorem claimLeader_noid (s : ServerState) (now : Nat) (browserId : Option String)
    (ts : Option Nat) (force : Bool) (tf : Option String)
    (h : truthy? browserId = none) :
    claimLeader s now browserId ts force tf =
      (s, { status := 400, success := false, leaderId := none, reason := none
            error := some "browserId required", stats := none }) := by
  unfold claimLeader
  rw [h]

theorem claimLeader_force (s : ServerState) (now : Nat) (browserId : Option String)
    (ts : Option Nat) (tf : Option String) (bid : String)
    (h : truthy? browserId = some bid) :
    claimLeader s now browserId ts true tf =
      ({ registerBrowser s now bid tf with
           leaderId := some bid, leaderHeartbeat := tsOrNow ts now },
       { status := 200, success := true, leaderId := some bid, reason := none
         error := none
         stats := some (getBrowserStats
           { registerBrowser s now bid tf with
               leaderId := some bid, leaderHeartbeat := tsOrNow ts now } now) }) := by
  unfold claimLeader
  rw [h]
  rfl

theorem claimLeader_takeover (s : ServerState) (now : Nat) (browserId : Option String)
    (ts : Option Nat) (tf : Option String) (bid : String)
    (h : truthy? browserId = some bid)
    (hc : s.leaderId = none ∨ now - s.leaderHeartbeat > leaderTimeout) :
    claimLeader s now browserId ts false tf =
      ({ registerBrowser s now bid tf with
           leaderId := some bid, leaderHeartbeat := tsOrNow ts now },
       { status := 200, success := true, leaderId := some bid, reason := none
         error := none
         stats := some (getBrowserStats
           { registerBrowser s now bid tf with
               leaderId := some bid, leaderHeartbeat := tsOrNow ts now } now) }) := by
  unfold claimLeader
  rw [h]
  simp only [registerBrowser_leaderId, registerBrowser_leaderHeartbeat]
  rw [if_neg (by simp), if_pos hc]

theorem claimLeader_reclaim (s : ServerState) (now : Nat) (browserId : Option String)
    (ts : Option Nat) (tf : Option String) (bid : String)
    (h : truthy? browserId = some bid)
    (hc : ¬ (s.leaderId = none ∨ now - s.leaderHeartbeat > leaderTimeout))
    (hl : s.leaderId = some bid) :
    claimLeader s now browserId ts false tf =
      ({ registerBrowser s now bid tf with leaderHeartbeat := tsOrNow ts now },
       { status := 200, success := true, leaderId := some bid, reason := none
         error := none
         stats := some (getBrowserStats
           { registerBrowser s now bid tf with
               leaderHeartbeat := tsOrNow ts now } now) }) := by
  unfold claimLeader
  rw [h]
  simp only [registerBrowser_leaderId, registerBrowser_leaderHeartbeat]
  rw [if_neg (by simp), if_neg hc, if_pos hl]

theorem claimLeader_reject (s : ServerState) (now : Nat) (browserId : Option String)
    (ts : Option Nat) (tf : Option String) (bid : String)
    (h : truthy? browserId = some bid)
    (hc : ¬ (s.leaderId = none ∨ now - s.leaderHeartbeat > leaderTimeout))
    (hl : ¬ s.leaderId = some bid) :
    claimLeader s now browserId ts false tf =
      (registerBrowser s now bid tf,
       { status := 200, success := false, leaderId := s.leaderId
         reason := some ("Leader " ++ shortOf s.leaderId ++ " is active")
         error := none
         stats := some (getBrowserStats (registerBrowser s now bid tf) now) }) := by
  unfold claimLeader
  rw [h]
  simp only [registerBrowser_leaderId, registerBrowser_leaderHeartbeat]
  rw [if_neg (by simp), if_neg hc, if_neg hl]

theorem heartbeat_noid (s : ServerState) (now : Nat) (browserId : Option String)
    (tf : Option String) (isL : Bool) (h : truthy? browserId = none) :
    heartbeat s now browserId tf isL =
      (s, { status := 400, success := false
            error := some "browserId required", stats := none }) := by
  unfold heartbeat
  rw [h]

theorem heartbeat_refresh (s : ServerState) (now : Nat) (browserId : Option String)
    (tf : Option String) (isL : Bool) (bid : String)
    (h : truthy? browserId = some bid) (hc : isL = true ∧ s.leaderId = some bid) :
    heartbeat s now browserId tf isL =
      ({ registerBrowser s now bid tf with leaderHeartbeat := now },
       { status := 200, success := true, error := none
         stats := some (getBrowserStats
           { registerBrowser s now bid tf with leaderHeartbeat := now } now) }) := by
  unfold heartbeat
  rw [h]
  simp only [registerBrowser_leaderId]
  rw [if_pos hc]

theorem heartbeat_plain (s : ServerState) (now : Nat) (browserId : Option String)
    (tf : Option String) (isL : Bool) (bid : String)
    (h : truthy? browserId = some bid) (hc : ¬ (isL = true ∧ s.leaderId = some bid)) :
    heartbeat s now browserId tf isL =
      (registerBrowser s now bid tf,
       { status := 200, success := true, error := none
         stats := some (getBrowserStats (registerBrowser s now bid tf) now) }) := by
  unfold heartbeat
  rw [h]
  simp only [registerBrowser_leaderId]
  rw [if_neg hc]

theorem postSyncState_noid (s : ServerState) (now : Nat) (body : PostBody)
    (h : truthy? body.leaderId = none) :
    postSyncState s now body =
      (spreadState s (stripElectionKeys body.rest),
       { status := 200, success := true, error := none
         stats := some (getBrowserStats
           (spreadState s (stripElectionKeys body.rest)) now) }) := by
  unfold postSyncState
  rw [h]

theorem postSyncState_leader (s : ServerState) (now : Nat) (body : PostBody)
    (lid : String) (h : truthy? body.leaderId = some lid)
    (hl : s.leaderId = some lid) :
    postSyncState s now body =
      (spreadState
         { registerBrowser s now lid (restTf body.rest) with
             leaderHeartbeat := tsOrNow body.leaderHeartbeat now }
         (stripElectionKeys body.rest),
       { status := 200, success := true, error := none
         stats := some (getBrowserStats
           (spreadState
             { registerBrowser s now lid (restTf body.rest) with
                 leaderHeartbeat := tsOrNow body.leaderHeartbeat now }
             (stripElectionKeys body.rest)) now) }) := by
  unfold postSyncState
  rw [h]
  simp only [registerBrowser_leaderId]
  rw [if_pos hl]

theorem postSyncState_nonleader (s : ServerState) (now : Nat) (body : PostBody)
    (lid : String) (h : truthy? body.leaderId = some lid)
    (hl : ¬ s.leaderId = some lid) :
    postSyncState s now body =
      (spreadState (registerBrowser s now lid (restTf body.rest))
         (stripElectionKeys body.rest),
       { status := 200, success := true, error := none
         stats := some (getBrowserStats
           (spreadState (registerBrowser s now lid (restTf body.rest))
             (stripElectionKeys body.rest)) now) }) := by
  unfold postSyncState
  rw [h]
  simp only [registerBrowser_leaderId]
  rw [if_neg hl]

theorem sweep_browsers (s : ServerState) (now : Nat) :
    (sweep s now).browsers = s.browsers.filter (fun kv => !(staleB now kv)) := rfl

theorem sweep_fields (s : ServerState) (now : Nat) :
    (sweep s now).fields = s.fields := rfl

theorem sweep_leaderId (s : ServerState) (now : Nat) :
    (sweep s now).leaderId =
      if leaderEvicted s now then none else s.leaderId := rfl

theorem sweep_leaderHeartbeat (s : ServerState) (now : Nat) :
    (sweep s now).leaderHeartbeat =
      if leaderEvicted s now then 0 else s.leaderHeartbeat := rfl

theorem sweep_mem (s : ServerState) (now : Nat) (id : String) (info : BrowserInfo) :
    (id, info) ∈ (sweep s now).browsers ↔
      (id, info) ∈ s.browsers ∧ now - info.lastSeen ≤ BROWSER_TIMEOUT := by
  rw [sweep_browsers, List.mem_filter]
  simp [staleB, Nat.not_lt]

theorem assocGet_isSome_iff {α : Type} (m : List (String × α)) (k : String) :
    (assocGet m k).isSome = true ↔ ∃ v, (k, v) ∈ m := by
  constructor
  · intro h
    rcases hg : assocGet m k with _ | v
    · rw [hg] at h; simp at h
    · exact ⟨v, assocGet_mem hg⟩
  · rintro ⟨v, hm⟩
    unfold assocGet
    rcases hf : m.find? (fun kv => kv.1 = k) with _ | p
    · exfalso
      have hex : ∃ x ∈ m, (fun kv : String × α => (kv.1 = k : Bool)) x = true :=
        ⟨(k, v), hm, by simp⟩
      rw [← List.find?_isSome] at hex
      rw [hf] at hex
      simp at hex
    · simp [hf]

theorem leaderEvicted_true {s : ServerState} {now : Nat} {lid : String}
    {info : BrowserInfo} (hl : s.leaderId = some lid)
    (hg : assocGet s.browsers lid = some info)
    (hstale : now - info.lastSeen > BROWSER_TIMEOUT) :
    leaderEvicted s now = true := by
  unfold leaderEvicted
  rw [hl]
  exact List.elem_iff.mpr (List.mem_map.mpr
    ⟨(lid, info), List.mem_filter.mpr
      ⟨assocGet_mem hg, by simpa [staleB] using hstale⟩, rfl⟩)

theorem sweep_evicted_leader {s : ServerState} {now : Nat} {lid : String}
    {info : BrowserInfo} (hl : s.leaderId = some lid)
    (hg : assocGet s.browsers lid = some info)
    (hstale : now - info.lastSeen > BROWSER_TIMEOUT) :
    (sweep s now).leaderId = none ∧ (sweep s now).leaderHeartbeat = 0 := by
  have he := leaderEvicted_true hl hg hstale
  rw [sweep_leaderId, sweep_leaderHeartbeat, if_pos he, if_pos he]
  exact ⟨rfl, rfl⟩

theorem leaderOk_registerBrowser (s : ServerState) (now : Nat) (bid : String)
    (tf : Option String) (h : leaderOk s) : leaderOk (registerBrowser s now bid tf) := by
  intro lid hl
  rw [registerBrowser_leaderId] at hl
  rw [registerBrowser_browsers]
  exact assocGet_isSome_assocSet _ _ _ _ (h lid hl)

theorem leaderOk_setHeartbeat (s : ServerState) (n : Nat) (h : leaderOk s) :
    leaderOk { s with leaderHeartbeat := n } :=
  fun lid hl => h lid hl

theorem leaderOk_win (s : ServerState) (now : Nat) (bid : String) (hb : Nat)
    (tf : Option String) :
    leaderOk { registerBrowser s now bid tf with
                 leaderId := some bid, leaderHeartbeat := hb } := by
  intro lid hl
  have hbid : lid = bid := (Option.some.inj hl).symm
  subst hbid
  show (assocGet (assocSet s.browsers lid ⟨now, orDefaultTf tf⟩) lid).isSome = true
  rw [assocGet_assocSet]
  simp

theorem leaderOk_spreadState_strip (s : ServerState) (rest : List (String × JVal))
    (h : leaderOk s) : leaderOk (spreadState s (stripElectionKeys rest)) := by
  intro lid hl
  obtain ⟨e1, _⟩ := spreadState_election s (stripElectionKeys rest)
    (fun kv hkv => mem_stripElectionKeys hkv)
  rw [e1] at hl
  rw [spreadState_browsers]
  exact h lid hl

theorem leaderOk_sweep (s : ServerState) (now : Nat) (h : leaderOk s) :
    leaderOk (sweep s now) := by
  intro lid hl
  by_cases he : leaderEvicted s now = true
  · rw [sweep_leaderId, if_pos he] at hl
    cases hl
  · rw [sweep_leaderId, if_neg he] at hl
    have hsome := h lid hl
    rcases hg : assocGet s.browsers lid with _ | info
    · rw [hg] at hsome; simp at hsome
    · have hmem := assocGet_mem hg
      have hfresh : ¬ (now - info.lastSeen > BROWSER_TIMEOUT) := fun hst =>
        he (leaderEvicted_true hl hg hst)
      have hkept : (lid, info) ∈ (sweep s now).browsers :=
        (sweep_mem s now lid info).mpr ⟨hmem, Nat.not_lt.mp hfresh⟩
      exact (assocGet_isSome_iff _ _).mpr ⟨info, hkept⟩

theorem leaderOk_resetState : leaderOk resetState := by
  intro lid hl
  simp [resetState] at hl

theorem leaderOk_step (s : ServerState) (op : Op) (h : leaderOk s) :
    leaderOk (step s op) := by
  cases op with
  | getStateOp now bid tf =>
      show leaderOk (getSyncState s now bid tf).1
      rcases ht : truthy? bid with _ | b <;> simp only [getSyncState, ht]
      · exact h
      · exact leaderOk_registerBrowser s now b tf h
  | postStateOp now body =>
      show leaderOk (postSyncState s now body).1
      rcases ht : truthy? body.leaderId with _ | lid
      · rw [postSyncState_noid s now body ht]
        exact leaderOk_spreadState_strip s body.rest h
      · by_cases hld : s.leaderId = some lid
        · rw [postSyncState_leader s now body lid ht hld]
          exact leaderOk_spreadState_strip _ body.rest
            (leaderOk_setHeartbeat _ _ (leaderOk_registerBrowser s now lid _ h))
        · rw [postSyncState_nonleader s now body lid ht hld]
          exact leaderOk_spreadState_strip _ body.rest
            (leaderOk_registerBrowser s now lid _ h)
  | claimOp now bid ts force tf =>
      show leaderOk (claimLeader s now bid ts force tf).1
      rcases ht : truthy? bid with _ | b
      · rw [claimLeader_noid s now bid ts force tf ht]
        exact h
      · cases force with
        | true =>
            rw [claimLeader_force s now bid ts tf b ht]
            exact leaderOk_win s now b _ tf
        | false =>
            by_cases hc : s.leaderId = none ∨ now - s.leaderHeartbeat > leaderTimeout
            · rw [claimLeader_takeover s now bid ts tf b ht hc]
              exact leaderOk_win s now b _ tf
            · by_cases hld : s.leaderId = some b
              · rw [claimLeader_reclaim s now bid ts tf b ht hc hld]
                exact leaderOk_setHeartbeat _ _ (leaderOk_registerBrowser s now b tf h)
              · rw [claimLeader_reject s now bid ts tf b ht hc hld]
                exact leaderOk_registerBrowser s now b tf h
  | heartbeatOp now bid tf isL =>
      show leaderOk (heartbeat s now bid tf isL).1
      rcases ht : truthy? bid with _ | b
      · rw [heartbeat_noid s now bid tf isL ht]
        exact h
      · by_cases hc : isL = true ∧ s.leaderId = some b
        · rw [heartbeat_refresh s now bid tf isL b ht hc]
          exact leaderOk_setHeartbeat _ _ (leaderOk_registerBrowser s now b tf h)
        · rw [heartbeat_plain s now bid tf isL b ht hc]
          exact leaderOk_registerBrowser s now b tf h
  | sweepOp now => exact leaderOk_sweep s now h
  | resetOp => exact leaderOk_resetState

theorem reachable_leaderOk (s : ServerState) (h : Reachable s) : leaderOk s := by
  induction h with
  | init => exact leaderOk_resetState
  | next op hr ih => exact leaderOk_step _ op ih

theorem truthy_of_ne (bid : String) (h : ¬ bid = "") : truthy? (some bid) = some bid := by
  simp [truthy?, h]

/- ## Claim theorems -/

/-- C1: a ClaimLeader request with a non-empty callerId succeeds exactly
when `force` is set, or there is no leader, or the stored leader heartbeat
is more than 8000 ms old, or the caller already is the leader; and every
success installs the caller as leader with heartbeat `timestamp || now`. -/
theorem claim_success_characterization (s : ServerState) (now : Nat) (bid : String)
    (ts : Option Nat) (force : Bool) (tf : Option String) (hbid : ¬ bid = "") :
    ((claimLeader s now (some bid) ts force tf).2.success = true ↔
      (force = true ∨ s.leaderId = none ∨ now - s.leaderHeartbeat > 8000 ∨
        s.leaderId = some bid)) ∧
    ((claimLeader s now (some bid) ts force tf).2.success = true →
      (claimLeader s now (some bid) ts force tf).1.leaderId = some bid ∧
      (claimLeader s now (some bid) ts force tf).1.leaderHeartbeat = tsOrNow ts now) := by
  have ht := truthy_of_ne bid hbid
  cases force with
  | true =>
      rw [claimLeader_force s now (some bid) ts tf bid ht]
      exact ⟨by simp, fun _ => ⟨rfl, rfl⟩⟩
  | false =>
      by_cases hc : s.leaderId = none ∨ now - s.leaderHeartbeat > leaderTimeout
      · rw [claimLeader_takeover s now (some bid) ts tf bid ht hc]
        refine ⟨?_, fun _ => ⟨rfl, rfl⟩⟩
        rcases hc with h1 | h2
        · simp [h1]
        · simp [leaderTimeout] at h2
          simp [h2]
      · by_cases hld : s.leaderId = some bid
        · rw [claimLeader_reclaim s now (some bid) ts tf bid ht hc hld]
          refine ⟨by simp [hld], fun _ => ⟨?_, rfl⟩⟩
          show s.leaderId = some bid
          exact hld
        · rw [claimLeader_reject s now (some bid) ts tf bid ht hc hld]
          rcases not_or.mp hc with ⟨h1, h2⟩
          simp [leaderTimeout] at h2
          refine ⟨?_, fun hfalse => absurd hfalse (by simp)⟩
          simp [h1, hld]
          omega

/-- C1 witness: from the initial state, a plain claim by "A" succeeds. -/
theorem claim_success_characterization_witness :
    ((claimLeader resetState 5 (some "A") none false none).2.success = true ↔
      (false = true ∨ resetState.leaderId = none ∨
        5 - resetState.leaderHeartbeat > 8000 ∨ resetState.leaderId = some "A")) ∧
    ((claimLeader resetState 5 (some "A") none false none).2.success = true →
      (claimLeader resetState 5 (some "A") none false none).1.leaderId = some "A" ∧
      (claimLeader resetState 5 (some "A") none false none).1.leaderHeartbeat =
        tsOrNow none 5) :=
  claim_success_characterization resetState 5 "A" none false none (by decide)

/-- C6: a rejected non-force claim returns the current leader id and a
human-readable reason, leaves `leaderId`, `leaderHeartbeat` and the shared
fields unchanged, and still refreshes the claimant's presence record with
`lastSeen = now`. -/
theorem claim_reject_frame (s : ServerState) (now : Nat) (bid : String)
    (ts : Option Nat) (tf : Option String) (other : String) (hbid : ¬ bid = "")
    (hl : s.leaderId = some other) (hne : ¬ other = bid)
    (hfresh : ¬ now - s.leaderHeartbeat > 8000) :
    (claimLeader s now (some bid) ts false tf).2.success = false ∧
    (claimLeader s now (some bid) ts false tf).2.leaderId = s.leaderId ∧
    (claimLeader s now (some bid) ts false tf).2.reason =
      some ("Leader " ++ sliceLast8 other ++ " is active") ∧
    (claimLeader s now (some bid) ts false tf).1.leaderId = s.leaderId ∧
    (claimLeader s now (some bid) ts false tf).1.leaderHeartbeat = s.leaderHeartbeat ∧
    (claimLeader s now (some bid) ts false tf).1.fields = s.fields ∧
    assocGet (claimLeader s now (some bid) ts false tf).1.browsers bid =
      some ⟨now, orDefaultTf tf⟩ := by
  have ht := truthy_of_ne bid hbid
  have hc : ¬ (s.leaderId = none ∨ now - s.leaderHeartbeat > leaderTimeout) := by
    rintro (h1 | h2)
    · rw [hl] at h1; cases h1
    · exact hfresh h2
  have hld : ¬ s.leaderId = some bid := by
    rw [hl]
    intro hh
    exact hne (Option.some.inj hh)
  rw [claimLeader_reject s now (some bid) ts tf bid ht hc hld]
  refine ⟨rfl, rfl, ?_, rfl, rfl, rfl, ?_⟩
  · rw [hl]; rfl
  · rw [registerBrowser_browsers, assocGet_assocSet]
    simp

/-- C6 witness: "A" claims while "B" holds a fresh leadership. -/
theorem claim_reject_frame_witness :
    (claimLeader ⟨some "B", 100, [], []⟩ 200 (some "A") none false none).2.success = false ∧
    (claimLeader ⟨some "B", 100, [], []⟩ 200 (some "A") none false none).2.leaderId =
      (⟨some "B", 100, [], []⟩ : ServerState).leaderId ∧
    (claimLeader ⟨some "B", 100, [], []⟩ 200 (some "A") none false none).2.reason =
      some ("Leader " ++ sliceLast8 "B" ++ " is active") ∧
    (claimLeader ⟨some "B", 100, [], []⟩ 200 (some "A") none false none).1.leaderId =
      (⟨some "B", 100, [], []⟩ : ServerState).leaderId ∧
    (claimLeader ⟨some "B", 100, [], []⟩ 200 (some "A") none false none).1.leaderHeartbeat =
      (⟨some "B", 100, [], []⟩ : ServerState).leaderHeartbeat ∧
    (claimLeader ⟨some "B", 100, [], []⟩ 200 (some "A") none false none).1.fields =
      (⟨some "B", 100, [], []⟩ : ServerState).fields ∧
    assocGet (claimLeader ⟨some "B", 100, [], []⟩ 200 (some "A") none false none).1.browsers
      "A" = some ⟨200, orDefaultTf none⟩ :=
  claim_reject_frame ⟨some "B", 100, [], []⟩ 200 "A" none none "B"
    (by decide) rfl (by decide) (by decide)

/-- C8 counterexample: touching "A" with tag "X" and then touching it again
without a tag resets the stored tag to the sentinel "5" instead of leaving
the prior tag "X" unchanged. -/
theorem registerBrowser_tag_counterexample :
    assocGet (registerBrowser (registerBrowser resetState 1 "A" (some "X")) 2 "A"
      none).browsers "A" = some ⟨2, "5"⟩ ∧
    ¬ assocGet (registerBrowser (registerBrowser resetState 1 "A" (some "X")) 2 "A"
      none).browsers "A" = some ⟨2, "X"⟩ := by
  constructor
  · rfl
  · intro h
    have h2 : (⟨2, "5"⟩ : BrowserInfo) = ⟨2, "X"⟩ := Option.some.inj (h.symm.trans rfl).symm
    exact absurd h2 (by decide)

/-- C8 (amended): touch always succeeds and stores `lastSeen = now`; it
stores the provided non-empty tag, but when the tag is absent or empty it
stores the sentinel "5" regardless of any previously stored tag; records of
other ids are untouched. -/
theorem registerBrowser_spec (s : ServerState) (now : Nat) (id : String)
    (tf : Option String) :
    assocGet (registerBrowser s now id tf).browsers id =
      some ⟨now, orDefaultTf tf⟩ ∧
    (∀ t, tf = some t → ¬ t = "" → orDefaultTf tf = t) ∧
    ((tf = none ∨ tf = some "") → orDefaultTf tf = "5") ∧
    (∀ k, ¬ k = id → assocGet (registerBrowser s now id tf).browsers k =
      assocGet s.browsers k) := by
  refine ⟨?_, ?_, ?_, ?_⟩
  · rw [registerBrowser_browsers, assocGet_assocSet]
    simp
  · intro t hteq htne
    subst hteq
    simp [orDefaultTf, htne]
  · rintro (h | h) <;> subst h <;> rfl
  · intro k hk
    rw [registerBrowser_browsers, assocGet_assocSet, if_neg hk]

/-- C8 witness: touching "A" with tag "7" at time 3. -/
theorem registerBrowser_spec_witness :
    assocGet (registerBrowser resetState 3 "A" (some "7")).browsers "A" =
      some ⟨3, orDefaultTf (some "7")⟩ ∧
    orDefaultTf (some "7") = "7" ∧
    assocGet (registerBrowser resetState 3 "A" (some "7")).browsers "B" =
      assocGet resetState.browsers "B" :=
  ⟨(registerBrowser_spec resetState 3 "A" (some "7")).1,
   (registerBrowser_spec resetState 3 "A" (some "7")).2.1 "7" rfl (by decide),
   (registerBrowser_spec resetState 3 "A" (some "7")).2.2.2 "B" (by decide)⟩

theorem browserStatus_cases (isL : Bool) (secs : Nat) :
    browserStatus isL secs =
      if isL = true then "leader" else if secs > 10 then "warning" else "online" := by
  unfold browserStatus
  cases isL with
  | true => simp
  | false =>
      simp only [Bool.false_eq_true, if_false]
      by_cases h10 : secs > 10
      · simp [h10]
      · have h20 : ¬ secs > 20 := fun h => h10 (lt_trans (by norm_num) h)
        simp [h10, h20]

theorem browserStatus_ne_offline (isL : Bool) (secs : Nat) :
    ¬ browserStatus isL secs = "offline" := by
  rw [browserStatus_cases]
  split
  · decide
  · split
    · decide
    · decide

theorem browserView_status (s : ServerState) (now : Nat) (bid : String)
    (info : BrowserInfo) :
    (browserView s now bid info).status =
      browserStatus (decide (s.leaderId = some bid)) (secondsAgo now info.lastSeen) := rfl

theorem getBrowserStats_list (s : ServerState) (now : Nat) :
    (getBrowserStats s now).browsersList =
      s.browsers.map (fun kv => browserView s now kv.1 kv.2) := rfl

theorem getBrowserStats_total (s : ServerState) (now : Nat) :
    (getBrowserStats s now).totalBrowsers =
      (s.browsers.map (fun kv => browserView s now kv.1 kv.2)).length := rfl

theorem getBrowserStats_online (s : ServerState) (now : Nat) :
    (getBrowserStats s now).browsersOnline =
      ((s.browsers.map (fun kv => browserView s now kv.1 kv.2)).filter
        (fun b => b.status != "offline")).length := rfl

/-- C7: the snapshot classifies each registered record as leader when its
id is the current leader, else warning when its age exceeds 10 seconds,
else online; the offline status is unreachable, so the online count equals
the number of registered records. -/
theorem browser_status_classification (s : ServerState) (now : Nat) :
    (∀ id info, (id, info) ∈ s.browsers →
      (browserView s now id info).status =
        (if s.leaderId = some id then "leader"
         else if secondsAgo now info.lastSeen > 10 then "warning" else "online")) ∧
    (∀ b ∈ (getBrowserStats s now).browsersList, ¬ b.status = "offline") ∧
    (getBrowserStats s now).browsersOnline = (getBrowserStats s now).totalBrowsers ∧
    (getBrowserStats s now).totalBrowsers = s.browsers.length := by
  refine ⟨?_, ?_, ?_, ?_⟩
  · intro id info _
    rw [browserView_status, browserStatus_cases]
    by_cases h : s.leaderId = some id <;> simp [h]
  · intro b hb
    rw [getBrowserStats_list] at hb
    rcases List.mem_map.mp hb with ⟨kv, _, hkv⟩
    rw [← hkv, browserView_status]
    exact browserStatus_ne_offline _ _
  · rw [getBrowserStats_online, getBrowserStats_total]
    have hall : (s.browsers.map (fun kv => browserView s now kv.1 kv.2)).filter
        (fun b => b.status != "offline") =
        s.browsers.map (fun kv => browserView s now kv.1 kv.2) := by
      rw [List.filter_eq_self]
      intro b hb
      rcases List.mem_map.mp hb with ⟨kv, _, hkv⟩
      rw [← hkv, browserView_status]
      simpa using browserStatus_ne_offline (decide (s.leaderId = some kv.1))
        (secondsAgo now kv.2.lastSeen)
    rw [hall]
  · rw [getBrowserStats_total, List.length_map]

/-- C7 witness: one registered leader record at time 0. -/
theorem browser_status_classification_witness :
    (browserView ⟨some "A", 0, [], [("A", ⟨0, "5"⟩)]⟩ 0 "A" ⟨0, "5"⟩).status =
      (if (⟨some "A", 0, [], [("A", ⟨0, "5"⟩)]⟩ : ServerState).leaderId = some "A"
       then "leader"
       else if secondsAgo 0 0 > 10 then "warning" else "online") ∧
    (getBrowserStats ⟨some "A", 0, [], [("A", ⟨0, "5"⟩)]⟩ 0).browsersOnline =
      (getBrowserStats ⟨some "A", 0, [], [("A", ⟨0, "5"⟩)]⟩ 0).totalBrowsers :=
  ⟨(browser_status_classification ⟨some "A", 0, [], [("A", ⟨0, "5"⟩)]⟩ 0).1 "A"
      ⟨0, "5"⟩ (by simp),
   (browser_status_classification ⟨some "A", 0, [], [("A", ⟨0, "5"⟩)]⟩ 0).2.2.1⟩

/-- C10: a client timestamp of 0 is falsy and treated as absent — a
successful claim carrying timestamp 0 and a leader state-post carrying
leaderHeartbeat 0 both store the server clock instead of 0. -/
theorem zero_timestamp_absent :
    (∀ s now bid ts tf force, ¬ bid = "" → ts = some 0 →
      (claimLeader s now (some bid) ts force tf).2.success = true →
      (claimLeader s now (some bid) ts force tf).1.leaderHeartbeat = now) ∧
    (∀ s now (body : PostBody) lid, ¬ lid = "" → body.leaderId = some lid →
      body.leaderHeartbeat = some 0 → s.leaderId = some lid →
      (postSyncState s now body).1.leaderHeartbeat = now) := by
  constructor
  · intro s now bid ts tf force hbid hts hsucc
    subst hts
    have ht := truthy_of_ne bid hbid
    have htz : tsOrNow (some 0) now = now := rfl
    cases force with
    | true =>
        rw [claimLeader_force s now (some bid) (some 0) tf bid ht]
        exact htz
    | false =>
        by_cases hc : s.leaderId = none ∨ now - s.leaderHeartbeat > leaderTimeout
        · rw [claimLeader_takeover s now (some bid) (some 0) tf bid ht hc]
          exact htz
        · by_cases hld : s.leaderId = some bid
          · rw [claimLeader_reclaim s now (some bid) (some 0) tf bid ht hc hld]
            exact htz
          · rw [claimLeader_reject s now (some bid) (some 0) tf bid ht hc hld] at hsucc
            exact absurd hsucc (by simp)
  · intro s now body lid hlid hbl hbh hsl
    have ht : truthy? body.leaderId = some lid := by
      rw [hbl]
      exact truthy_of_ne lid hlid
    rw [postSyncState_leader s now body lid ht hsl]
    obtain ⟨_, e2⟩ := spreadState_election
      { registerBrowser s now lid (restTf body.rest) with
          leaderHeartbeat := tsOrNow body.leaderHeartbeat now }
      (stripElectionKeys body.rest) (fun kv hkv => mem_stripElectionKeys hkv)
    rw [e2]
    show tsOrNow body.leaderHeartbeat now = now
    rw [hbh]
    rfl

/-- C10 witness: a forced claim with timestamp 0, and a leader post with
leaderHeartbeat 0, both store the server clock. -/
theorem zero_timestamp_absent_witness :
    (claimLeader resetState 7 (some "A") (some 0) true none).1.leaderHeartbeat = 7 ∧
    (postSyncState ⟨some "A", 99, [], []⟩ 123 ⟨some "A", some 0, []⟩).1.leaderHeartbeat
      = 123 :=
  ⟨zero_timestamp_absent.1 resetState 7 "A" (some 0) none true (by decide) rfl rfl,
   zero_timestamp_absent.2 ⟨some "A", 99, [], []⟩ 123 ⟨some "A", some 0, []⟩ "A"
     (by decide) rfl rfl rfl⟩

theorem getSyncState_leaderId (s : ServerState) (now : Nat) (bid : Option String)
    (tf : Option String) : (getSyncState s now bid tf).1.leaderId = s.leaderId := by
  rcases ht : truthy? bid with _ | b <;>
    simp [getSyncState, ht, registerBrowser_leaderId]

theorem postSyncState_leaderId (s : ServerState) (now : Nat) (body : PostBody) :
    (postSyncState s now body).1.leaderId = s.leaderId := by
  rcases ht : truthy? body.leaderId with _ | lid
  · rw [postSyncState_noid s now body ht]
    exact (spreadState_election _ _ (fun kv hkv => mem_stripElectionKeys hkv)).1
  · by_cases hld : s.leaderId = some lid
    · rw [postSyncState_leader s now body lid ht hld]
      exact ((spreadState_election _ _ (fun kv hkv => mem_stripElectionKeys hkv)).1).trans
        rfl
    · rw [postSyncState_nonleader s now body lid ht hld]
      exact ((spreadState_election _ _ (fun kv hkv => mem_stripElectionKeys hkv)).1).trans
        rfl

theorem heartbeat_leaderId (s : ServerState) (now : Nat) (bid : Option String)
    (tf : Option String) (isL : Bool) :
    (heartbeat s now bid tf isL).1.leaderId = s.leaderId := by
  rcases ht : truthy? bid with _ | b
  · rw [heartbeat_noid s now bid tf isL ht]
  · by_cases hc : isL = true ∧ s.leaderId = some b
    · rw [heartbeat_refresh s now bid tf isL b ht hc]
      rfl
    · rw [heartbeat_plain s now bid tf isL b ht hc]
      rfl

/-- C2 counterexample: from the initial state, "A" claims at t=1000 (the
stored heartbeat becomes 1000), then re-claims at t=2000 with the explicit
client timestamp 5; `leaderId` is unchanged across the second operation but
`leaderHeartbeat` drops from 1000 to 5. -/
theorem heartbeat_monotonicity_counterexample :
    (step (step resetState (.claimOp 1000 (some "A") none false none))
        (.claimOp 2000 (some "A") (some 5) false none)).leaderId =
      (step resetState (.claimOp 1000 (some "A") none false none)).leaderId ∧
    (step (step resetState (.claimOp 1000 (some "A") none false none))
        (.claimOp 2000 (some "A") (some 5) false none)).leaderHeartbeat <
      (step resetState (.claimOp 1000 (some "A") none false none)).leaderHeartbeat := by
  decide

/-- C2 (amended): while `leaderId` stays unchanged and the stored heartbeat
is not in the future, `leaderHeartbeat` is non-decreasing across Claim,
Heartbeat and PostState provided the request carries no explicit nonzero
client timestamp (an explicit nonzero `timestamp`/`leaderHeartbeat` field
is stored verbatim and may lower it); and `leaderHeartbeat` is reset to 0
whenever `leaderId` becomes empty. -/
theorem heartbeat_monotone_amended :
    (∀ s now bid ts force tf, (ts = none ∨ ts = some 0) →
      s.leaderHeartbeat ≤ now →
      (claimLeader s now bid ts force tf).1.leaderId = s.leaderId →
      s.leaderHeartbeat ≤ (claimLeader s now bid ts force tf).1.leaderHeartbeat) ∧
    (∀ s now bid tf isL, s.leaderHeartbeat ≤ now →
      s.leaderHeartbeat ≤ (heartbeat s now bid tf isL).1.leaderHeartbeat) ∧
    (∀ s now (body : PostBody),
      (body.leaderHeartbeat = none ∨ body.leaderHeartbeat = some 0) →
      s.leaderHeartbeat ≤ now →
      s.leaderHeartbeat ≤ (postSyncState s now body).1.leaderHeartbeat) ∧
    (∀ s (op : Op), ¬ s.leaderId = none → (step s op).leaderId = none →
      (step s op).leaderHeartbeat = 0) := by
  refine ⟨?_, ?_, ?_, ?_⟩
  · intro s now bid ts force tf hts hnow _
    have htz : tsOrNow ts now = now := by
      rcases hts with h | h <;> rw [h] <;> rfl
    rcases ht : truthy? bid with _ | b
    · rw [claimLeader_noid s now bid ts force tf ht]
    · cases force with
      | true =>
          rw [claimLeader_force s now bid ts tf b ht]
          show s.leaderHeartbeat ≤ tsOrNow ts now
          rw [htz]; exact hnow
      | false =>
          by_cases hc : s.leaderId = none ∨ now - s.leaderHeartbeat > leaderTimeout
          · rw [claimLeader_takeover s now bid ts tf b ht hc]
            show s.leaderHeartbeat ≤ tsOrNow ts now
            rw [htz]; exact hnow
          · by_cases hld : s.leaderId = some b
            · rw [claimLeader_reclaim s now bid ts tf b ht hc hld]
              show s.leaderHeartbeat ≤ tsOrNow ts now
              rw [htz]; exact hnow
            · rw [claimLeader_reject s now bid ts tf b ht hc hld]
              exact le_refl _
  · intro s now bid tf isL hnow
    rcases ht : truthy? bid with _ | b
    · rw [heartbeat_noid s now bid tf isL ht]
    · by_cases hc : isL = true ∧ s.leaderId = some b
      · rw [heartbeat_refresh s now bid tf isL b ht hc]
        exact hnow
      · rw [heartbeat_plain s now bid tf isL b ht hc]
        exact le_refl _
  · intro s now body hts hnow
    rcases ht : truthy? body.leaderId with _ | lid
    · rw [postSyncState_noid s now body ht]
      rw [(spreadState_election _ _ (fun kv hkv => mem_stripElectionKeys hkv)).2]
    · by_cases hld : s.leaderId = some lid
      · rw [postSyncState_leader s now body lid ht hld]
        rw [(spreadState_election _ _ (fun kv hkv => mem_stripElectionKeys hkv)).2]
        show s.leaderHeartbeat ≤ tsOrNow body.leaderHeartbeat now
        have htz : tsOrNow body.leaderHeartbeat now = now := by
          rcases hts with h | h <;> rw [h] <;> rfl
        rw [htz]; exact hnow
      · rw [postSyncState_nonleader s now body lid ht hld]
        rw [(spreadState_election _ _ (fun kv hkv => mem_stripElectionKeys hkv)).2]
        exact le_refl _
  · intro s op hne heq
    cases op with
    | getStateOp now bid tf =>
        rw [show (step s (.getStateOp now bid tf)).leaderId = s.leaderId from
          getSyncState_leaderId s now bid tf] at heq
        exact absurd heq hne
    | postStateOp now body =>
        rw [show (step s (.postStateOp now body)).leaderId = s.leaderId from
          postSyncState_leaderId s now body] at heq
        exact absurd heq hne
    | claimOp now bid ts force tf =>
        rcases ht : truthy? bid with _ | b
        · rw [show (step s (.claimOp now bid ts force tf)).leaderId = s.leaderId from by
            show (claimLeader s now bid ts force tf).1.leaderId = s.leaderId
            rw [claimLeader_noid s now bid ts force tf ht]] at heq
          exact absurd heq hne
        · cases force with
          | true =>
              rw [show (step s (.claimOp now bid ts true tf)).leaderId = some b from by
                show (claimLeader s now bid ts true tf).1.leaderId = some b
                rw [claimLeader_force s now bid ts tf b ht]] at heq
              cases heq
          | false =>
              by_cases hc : s.leaderId = none ∨ now - s.leaderHeartbeat > leaderTimeout
              · rw [show (step s (.claimOp now bid ts false tf)).leaderId = some b from by
                  show (claimLeader s now bid ts false tf).1.leaderId = some b
                  rw [claimLeader_takeover s now bid ts tf b ht hc]] at heq
                cases heq
              · by_cases hld : s.leaderId = some b
                · rw [show (step s (.claimOp now bid ts false tf)).leaderId = s.leaderId
                      from by
                    show (claimLeader s now bid ts false tf).1.leaderId = s.leaderId
                    rw [claimLeader_reclaim s now bid ts tf b ht hc hld]
                    rfl] at heq
                  exact absurd heq hne
                · rw [show (step s (.claimOp now bid ts false tf)).leaderId = s.leaderId
                      from by
                    show (claimLeader s now bid ts false tf).1.leaderId = s.leaderId
                    rw [claimLeader_reject s now bid ts tf b ht hc hld]
                    rfl] at heq
                  exact absurd heq hne
    | heartbeatOp now bid tf isL =>
        rw [show (step s (.heartbeatOp now bid tf isL)).leaderId = s.leaderId from
          heartbeat_leaderId s now bid tf isL] at heq
        exact absurd heq hne
    | sweepOp now =>
        by_cases he : leaderEvicted s now = true
        · show (sweep s now).leaderHeartbeat = 0
          rw [sweep_leaderHeartbeat, if_pos he]
        · rw [show (step s (.sweepOp now)).leaderId = s.leaderId from by
            show (sweep s now).leaderId = s.leaderId
            rw [sweep_leaderId, if_neg he]] at heq
          exact absurd heq hne
    | resetOp => rfl

/-- C2 witness: the amended monotonicity at a concrete renewal, and the
reset-to-zero part at a concrete sweep eviction. -/
theorem heartbeat_monotone_amended_witness :
    (⟨some "A", 50, [], []⟩ : ServerState).leaderHeartbeat ≤
      (claimLeader ⟨some "A", 50, [], []⟩ 60 (some "A") none false none).1.leaderHeartbeat ∧
    (⟨some "A", 50, [], []⟩ : ServerState).leaderHeartbeat ≤
      (heartbeat ⟨some "A", 50, [], []⟩ 60 (some "A") none true).1.leaderHeartbeat ∧
    (⟨some "A", 50, [], []⟩ : ServerState).leaderHeartbeat ≤
      (postSyncState ⟨some "A", 50, [], []⟩ 60 ⟨some "A", none, []⟩).1.leaderHeartbeat ∧
    (step ⟨some "A", 0, [], [("A", ⟨0, "5"⟩)]⟩ (.sweepOp 40000)).leaderHeartbeat = 0 :=
  ⟨heartbeat_monotone_amended.1 ⟨some "A", 50, [], []⟩ 60 (some "A") none false none
     (Or.inl rfl) (by decide) (by decide),
   heartbeat_monotone_amended.2.1 ⟨some "A", 50, [], []⟩ 60 (some "A") none true
     (by decide),
   heartbeat_monotone_amended.2.2.1 ⟨some "A", 50, [], []⟩ 60 ⟨some "A", none, []⟩
     (Or.inl rfl) (by decide),
   heartbeat_monotone_amended.2.2.2 ⟨some "A", 0, [], [("A", ⟨0, "5"⟩)]⟩ (.sweepOp 40000)
     (by decide) (by decide)⟩

/-- C3: the sweep keeps exactly the records seen within 30000 ms; evicting
the leader's record clears `leaderId` and zeroes `leaderHeartbeat`; and in
every reachable state a non-empty `leaderId` has a registered record. -/
theorem sweep_exact_and_leader_invariant :
    (∀ s now id info, (id, info) ∈ (sweep s now).browsers ↔
        ((id, info) ∈ s.browsers ∧ now - info.lastSeen ≤ 30000)) ∧
    (∀ s now lid info, s.leaderId = some lid →
        assocGet s.browsers lid = some info → now - info.lastSeen > 30000 →
        (sweep s now).leaderId = none ∧ (sweep s now).leaderHeartbeat = 0) ∧
    (∀ s, Reachable s → leaderOk s) := by
  refine ⟨?_, ?_, reachable_leaderOk⟩
  · intro s now id info
    exact sweep_mem s now id info
  · intro s now lid info h1 h2 h3
    exact sweep_evicted_leader h1 h2 h3

/-- C3 witness: a leader silent for 40 s is evicted and leadership cleared;
the registry invariant holds at the initial state. -/
theorem sweep_exact_and_leader_invariant_witness :
    ((sweep ⟨some "A", 0, [], [("A", ⟨0, "5"⟩)]⟩ 40000).leaderId = none ∧
     (sweep ⟨some "A", 0, [], [("A", ⟨0, "5"⟩)]⟩ 40000).leaderHeartbeat = 0) ∧
    leaderOk resetState :=
  ⟨sweep_exact_and_leader_invariant.2.1 ⟨some "A", 0, [], [("A", ⟨0, "5"⟩)]⟩ 40000 "A"
     ⟨0, "5"⟩ rfl rfl (by decide),
   sweep_exact_and_leader_invariant.2.2 resetState Reachable.init⟩

theorem lastVal_strip (rest : List (String × JVal)) (k : String)
    (h1 : ¬ k = "leaderId") (h2 : ¬ k = "leaderHeartbeat") :
    lastVal (stripElectionKeys rest) k = lastVal rest k := by
  induction rest with
  | nil => rfl
  | cons kv tail ih =>
      obtain ⟨k1, v⟩ := kv
      unfold stripElectionKeys at ih ⊢
      rw [List.filter_cons]
      by_cases c1 : k1 = "leaderId" ∨ k1 = "leaderHeartbeat"
      · rw [if_neg (by rcases c1 with h | h <;> simp [h])]
        rw [ih]
        rw [lastVal_cons]
        have hk1 : ¬ k1 = k := by
          rcases c1 with h | h <;> subst h
          · exact fun hh => h1 hh.symm
          · exact fun hh => h2 hh.symm
        rcases hv : lastVal tail k with _ | w <;> simp [hv, hk1]
      · rcases not_or.mp c1 with ⟨c2, c3⟩
        rw [if_pos (by simp [c2, c3])]
        rw [lastVal_cons, lastVal_cons, ih]

/-- C4: PostState shallow-merges every payload field except the protected
election fields into the shared state, last write wins, unknown fields
included; and the merge path never changes `leaderId`/`leaderHeartbeat`. -/
theorem postState_merge_spec :
    (∀ s now (body : PostBody) k, ¬ k = "leaderId" → ¬ k = "leaderHeartbeat" →
      assocGet (postSyncState s now body).1.fields k =
        mergedVal (assocGet s.fields k) body.rest k) ∧
    (∀ s (rest : List (String × JVal)),
      (spreadState s (stripElectionKeys rest)).leaderId = s.leaderId ∧
      (spreadState s (stripElectionKeys rest)).leaderHeartbeat = s.leaderHeartbeat) := by
  constructor
  · intro s now body k h1 h2
    have key : ∀ x : ServerState, x.fields = s.fields →
        assocGet (spreadState x (stripElectionKeys body.rest)).fields k =
          mergedVal (assocGet s.fields k) body.rest k := by
      intro x hx
      rw [spreadState_fields x _ k h1 h2, hx]
      unfold mergedVal
      rw [lastVal_strip body.rest k h1 h2]
    rcases ht : truthy? body.leaderId with _ | lid
    · rw [postSyncState_noid s now body ht]
      exact key s rfl
    · by_cases hld : s.leaderId = some lid
      · rw [postSyncState_leader s now body lid ht hld]
        exact key _ rfl
      · rw [postSyncState_nonleader s now body lid ht hld]
        exact key _ rfl
  · intro s rest
    exact spreadState_election s _ (fun kv hkv => mem_stripElectionKeys hkv)

/-- C4 witness: a payload with an unknown field and a protected field. -/
theorem postState_merge_spec_witness :
    assocGet (postSyncState resetState 9
      ⟨none, none, [("leaderId", .vStr "EVIL"), ("foo", .vNum 1)]⟩).1.fields "foo" =
      mergedVal (assocGet resetState.fields "foo")
        [("leaderId", JVal.vStr "EVIL"), ("foo", JVal.vNum 1)] "foo" ∧
    (spreadState resetState
      (stripElectionKeys [("leaderId", JVal.vStr "EVIL")])).leaderId =
      resetState.leaderId :=
  ⟨postState_merge_spec.1 resetState 9
     ⟨none, none, [("leaderId", .vStr "EVIL"), ("foo", .vNum 1)]⟩ "foo"
     (by decide) (by decide),
   (postState_merge_spec.2 resetState [("leaderId", JVal.vStr "EVIL")]).1⟩

/-- C5 counterexample: a PostState with no caller id at all is not
rejected — it reports success (HTTP 200) and still mutates the shared
state by merging the payload. -/
theorem postState_missing_caller_counterexample :
    (postSyncState resetState 1000
      ⟨none, none, [("currentIndex", .vNum 42)]⟩).2.success = true ∧
    (postSyncState resetState 1000
      ⟨none, none, [("currentIndex", .vNum 42)]⟩).2.status = 200 ∧
    ¬ (postSyncState resetState 1000
      ⟨none, none, [("currentIndex", .vNum 42)]⟩).1.fields = resetState.fields := by
  refine ⟨rfl, rfl, ?_⟩
  intro h
  have h1 : assocGet (postSyncState resetState 1000
      ⟨none, none, [("currentIndex", JVal.vNum 42)]⟩).1.fields "currentIndex" =
      some (.vNum 42) := rfl
  rw [h] at h1
  have h2 : assocGet resetState.fields "currentIndex" = some (.vNum 0) := rfl
  rw [h2] at h1
  have h3 : JVal.vNum 0 = JVal.vNum 42 := Option.some.inj h1
  injection h3 with h4
  exact absurd h4 (by decide)

/-- C5 (amended): ClaimLeader and Heartbeat reject a missing or empty
callerId with a 400 client error and no state change; PostState performs no
callerId validation — with a missing/empty callerId it skips the presence
touch and the heartbeat refresh but still merges the payload and reports
success. -/
theorem callerId_validation_amended :
    (∀ s now bid ts force tf, truthy? bid = none →
      claimLeader s now bid ts force tf =
        (s, ⟨400, false, none, none, some "browserId required", none⟩)) ∧
    (∀ s now bid tf isL, truthy? bid = none →
      heartbeat s now bid tf isL =
        (s, ⟨400, false, some "browserId required", none⟩)) ∧
    (∀ s now (body : PostBody), truthy? body.leaderId = none →
      (postSyncState s now body).2.success = true ∧
      (postSyncState s now body).1 = spreadState s (stripElectionKeys body.rest) ∧
      (postSyncState s now body).1.browsers = s.browsers ∧
      (postSyncState s now body).1.leaderId = s.leaderId ∧
      (postSyncState s now body).1.leaderHeartbeat = s.leaderHeartbeat) := by
  refine ⟨?_, ?_, ?_⟩
  · intro s now bid ts force tf ht
    exact claimLeader_noid s now bid ts force tf ht
  · intro s now bid tf isL ht
    exact heartbeat_noid s now bid tf isL ht
  · intro s now body ht
    rw [postSyncState_noid s now body ht]
    refine ⟨rfl, rfl, ?_, ?_, ?_⟩
    · exact spreadState_browsers s _
    · exact (spreadState_election s _ (fun kv hkv => mem_stripElectionKeys hkv)).1
    · exact (spreadState_election s _ (fun kv hkv => mem_stripElectionKeys hkv)).2

/-- C5 witness: an empty-string claim id, an absent heartbeat id, and a
PostState without a caller id. -/
theorem callerId_validation_amended_witness :
    claimLeader resetState 5 (some "") none false none =
      (resetState, ⟨400, false, none, none, some "browserId required", none⟩) ∧
    heartbeat resetState 5 none none false =
      (resetState, ⟨400, false, some "browserId required", none⟩) ∧
    (postSyncState resetState 5 ⟨none, none, []⟩).2.success = true :=
  ⟨callerId_validation_amended.1 resetState 5 (some "") none false none (by decide),
   callerId_validation_amended.2.1 resetState 5 none none false (by decide),
   (callerId_validation_amended.2.2 resetState 5 ⟨none, none, []⟩ (by decide)).1⟩

/-- C9: reset installs, from any state, the default shape (no leader,
heartbeat 0, default fields, empty registry), and a following GetState
without a caller id returns exactly that shape with zero clients. -/
theorem reset_default_shape (s : ServerState) (now : Nat) :
    resetServer s = (resetState, ⟨200, true, none, none⟩) ∧
    resetState.leaderId = none ∧
    resetState.leaderHeartbeat = 0 ∧
    resetState.fields = defaultFields ∧
    resetState.browsers = [] ∧
    getSyncState resetState now none none =
      (resetState, ⟨none, 0, defaultFields, ⟨0, 0, []⟩⟩) :=
  ⟨rfl, rfl, rfl, rfl, rfl, rfl⟩

end SyncServer
